import Mathlib

/-!
Verification development for the `islamic-apis` repository, centred on the
astronomical prayer-time and qibla-direction calculation engine
(`prayer-times-api/src/calculations.rs`, `qibla-api/src/calculations.rs`,
`prayer-times-api/src/handlers.rs`).

The Rust code computes with `f64`; this development embeds the same formulas
over the real numbers `ℝ`, so IEEE-754 rounding, infinities and NaN payloads
are outside the model.  Fallible Rust functions returning `ApiResult<T>` are
embedded as `Except ApiError T`.  External crates (chrono calendar
arithmetic, the hijri_date converter) are collaborators of the engine; where
they are needed they are modelled explicitly or taken as pure function
parameters, as noted at the definition site.
-/

namespace IslamicApis

noncomputable section

open Real

/-- Converts degrees to radians (source: `dtr`). -/
def dtr (degrees : ℝ) : ℝ := degrees * π / 180

/-- Converts radians to degrees (source: `rtd`). -/
def rtd (radians : ℝ) : ℝ := radians * 180 / π

/-- Generic normalization function (source: `fix`): `a - b * floor (a / b)`,
with a guard adding `b` back if the result is negative (the guard is only
reachable through floating-point rounding; over `ℝ` the first expression is
already in `[0, b)` for `b > 0`). -/
def fix (a b : ℝ) : ℝ :=
  let a2 := a - b * (⌊a / b⌋ : ℤ)
  if a2 < 0 then a2 + b else a2

/-- Normalizes an angle to `[0, 360)` (source: `fix_angle`). -/
def fixAngle (angle : ℝ) : ℝ := fix angle 360

/-- Normalizes an hour value to `[0, 24)` (source: `fix_hour`). -/
def fixHour (hour : ℝ) : ℝ := fix hour 24

/-- The two-argument arctangent as computed by `libm::atan2`, embedded over
`ℝ` (the signed-zero distinctions of IEEE-754 collapse: here `atan2 0 0 = 0`
and the `x = 0` axis uses the sign of `y` only). -/
def atan2 (y x : ℝ) : ℝ :=
  if 0 < x then arctan (y / x)
  else if x < 0 then
    (if 0 ≤ y then arctan (y / x) + π else arctan (y / x) - π)
  else
    (if 0 < y then π / 2 else if y < 0 then -(π / 2) else 0)

/-- Error taxonomy of the service layer (source: `shared::error::ApiError`;
only the variants reached by the embedded code paths are modelled). -/
inductive ApiError where
  | Calculation (msg : String)
  | InvalidInput (msg : String)
  | DateParsing (msg : String)
  deriving Repr, DecidableEq

/-- Asr juristic school (source: `models::School`). -/
inductive School where
  | Standard
  | Hanafi
  deriving Repr, DecidableEq

/-- Midnight convention (source: `models::Midnight`). -/
inductive Midnight where
  | Standard
  | Jafari
  deriving Repr, DecidableEq

/-- High-latitude correction rule (source: `models::HighLatitudeRule`). -/
inductive HighLatitudeRule where
  | NightMiddle
  | OneSeventh
  | AngleBased
  deriving Repr, DecidableEq

/-- Shafaq variant (source: `models::Shafaq`; carried in the settings but
never read by the calculation code). -/
inductive Shafaq where
  | General
  | Ahmer
  | Abyad
  deriving Repr, DecidableEq

/-- A minute offset or an angle, mutually exclusive
(source: `models::MinuteOrAngle`). -/
inductive MinuteOrAngle where
  | Minute (minute : ℝ)
  | Angle (angle : ℝ)

/-- Resolved calculation-method parameters (source: `models::MethodSettings`). -/
structure MethodSettings where
  fajr : ℝ
  isha : MinuteOrAngle
  midnight : Midnight
  maghrib : MinuteOrAngle
  imsak : MinuteOrAngle
  dhuhr : ℝ
  shafaq : Option Shafaq
  school : School
  high_lat : Option HighLatitudeRule

/-- The eleven raw floating-point prayer times of one day
(source: `RawPrayerTimes`; `Default` in Rust zero-initializes). -/
structure RawTimes where
  imsak : ℝ := 0
  fajr : ℝ := 0
  sunrise : ℝ := 0
  dhuhr : ℝ := 0
  asr : ℝ := 0
  sunset : ℝ := 0
  maghrib : ℝ := 0
  isha : ℝ := 0
  midnight : ℝ := 0
  first_third : ℝ := 0
  last_third : ℝ := 0

/-- Julian Day from a proleptic-Gregorian calendar date
(source: `julian_date`; the Rust function wraps the value in `Ok` but has no
error path). -/
def julianDate (year month day : ℤ) : ℝ :=
  let year2 : ℤ := if month ≤ 2 then year - 1 else year
  let month2 : ℤ := if month ≤ 2 then month + 12 else month
  let a : ℝ := ⌊(year2 : ℝ) / 100⌋
  let b : ℝ := 2 - a + ⌊a / 4⌋
  ⌊365.25 * ((year2 : ℝ) + 4716)⌋ + ⌊30.6001 * ((month2 : ℝ) + 1)⌋
    + (day : ℝ) + b - 1524.5

/-- Ecliptic longitude `l` of the low-order solar model (source:
`sun_position`, local `l`). -/
def sunEclLng (jd : ℝ) : ℝ :=
  let d := jd - 2451545
  let g := fixAngle (357.529 + 0.98560028 * d)
  let q := fixAngle (280.459 + 0.98564736 * d)
  fixAngle (q + 1.915 * sin (dtr g) + 0.020 * sin (dtr (2 * g)))

/-- Obliquity `e` of the solar model (source: `sun_position`, local `e`). -/
def sunObliquity (jd : ℝ) : ℝ := 23.439 - 0.00000036 * (jd - 2451545)

/-- The argument handed to `asin` when computing the declination
(source: `sun_position`, `sin(dtr(e)) * sin(dtr(l))`). -/
def declArg (jd : ℝ) : ℝ := sin (dtr (sunObliquity jd)) * sin (dtr (sunEclLng jd))

/-- Equation of time and declination from a Julian Day
(source: `sun_position`). -/
def sunPosition (jd : ℝ) : ℝ × ℝ :=
  let d := jd - 2451545
  let q := fixAngle (280.459 + 0.98564736 * d)
  let l := sunEclLng jd
  let e := sunObliquity jd
  let ra := rtd (atan2 (cos (dtr e) * sin (dtr l)) (cos (dtr l))) / 15
  let eqt := q / 15 - fixHour ra
  let decl := rtd (arcsin (declArg jd))
  (eqt, decl)

/-- Local solar noon (source: `mid_day`). -/
def midDay (eqt : ℝ) : ℝ := fixHour (12 - eqt)

/-- The acos argument of the hour-angle solver after the `clamp(-1.0, 1.0)`
call (source: `sun_angle_time`, local `cos_range`).  Rust's
`x.clamp(lo, hi)` is `min (max x lo) hi`. -/
def cosRange (latitude angle decl : ℝ) : ℝ :=
  let lat := dtr latitude
  let p1 := -sin (dtr angle) - sin (dtr decl) * sin lat
  let p2 := cos (dtr decl) * cos lat
  min (max (p1 / p2) (-1)) 1

/-- Hour-angle solver (source: `sun_angle_time`): the clock hour at which the
sun reaches the given depression angle, `direction = -1` for morning events
and `+1` for evening events.  Fails with a `Calculation` error exactly on the
zero-denominator check `p2 == 0.0`. -/
def sunAngleTime (latitude angle eqt decl direction : ℝ) : Except ApiError ℝ :=
  let lat := dtr latitude
  let noon := midDay eqt
  let p2 := cos (dtr decl) * cos lat
  if p2 = 0 then
    .error (.Calculation ("Division by zero in sun angle calculation"))
  else
    .ok (noon + direction * (rtd (arccos (cosRange latitude angle decl)) / 15))

/-- Asr shadow-factor of a school (source: `compute_times`, the match on
`method_settings.school`: Standard ↦ 1.0, Hanafi ↦ 2.0). -/
def asrFactorOf (school : School) : ℝ :=
  match school with
  | .Standard => 1
  | .Hanafi => 2

/-- Asr time from the shadow factor (source: `asr_time`): shadow angle
`atan(1/(factor + tan |lat - decl|))` fed to the hour-angle solver with
direction `+1`. -/
def asrTime (latitude factor eqt decl : ℝ) : Except ApiError ℝ :=
  let lat := dtr latitude
  let declRad := dtr decl
  let angle := rtd (arctan (1 / (factor + tan |lat - declRad|)))
  sunAngleTime latitude angle eqt decl 1

/-- Sunrise/sunset dip angle from the elevation (source: `rise_set_angle`). -/
def riseSetAngle (elevation : ℝ) : ℝ := 0.833 + 0.0347 * Real.sqrt |elevation|

/-- The Isha angle used by the high-latitude corrector (source:
`adjust_high_latitudes`, local `isha_angle`): the configured angle if Isha is
angle-based, otherwise a hard-coded default of 18 degrees. -/
def ishaAngleOf (s : MethodSettings) : ℝ :=
  match s.isha with
  | .Angle a => a
  | _ => 18

/-- The Fajr portion of the night used by each high-latitude rule (source:
`adjust_high_latitudes`, local `portion` / `fajr_portion` per branch). -/
def fajrPortionOf (s : MethodSettings) (rule : HighLatitudeRule) (night : ℝ) : ℝ :=
  match rule with
  | .NightMiddle => night / 2
  | .OneSeventh => night / 7
  | .AngleBased => s.fajr / 60 * night

/-- The Isha portion of the night used by each high-latitude rule (source:
`adjust_high_latitudes`, local `portion` / `isha_portion` per branch). -/
def ishaPortionOf (s : MethodSettings) (rule : HighLatitudeRule) (night : ℝ) : ℝ :=
  match rule with
  | .NightMiddle => night / 2
  | .OneSeventh => night / 7
  | .AngleBased => ishaAngleOf s / 60 * night

/-- High-latitude corrector (source: `adjust_high_latitudes`).  All three
branches perform the same two conditional overrides, differing only in the
portion; the `is_nan` disjuncts of the source guards have no counterpart
over `ℝ`, which has no NaN (see the development header).  The Rust function
returns `Ok(times)` unconditionally, so it is embedded as a pure function. -/
def adjustHighLatitudes (s : MethodSettings) (times : RawTimes)
    (rule : HighLatitudeRule) : RawTimes :=
  let night := fixHour (times.sunrise - times.sunset)
  let pf := fajrPortionOf s rule night
  let pi := ishaPortionOf s rule night
  { times with
    fajr := if fixHour (times.sunrise - times.fajr) > pf
      then times.sunrise - pf else times.fajr,
    isha := if fixHour (times.isha - times.sunset) > pi
      then times.sunset + pi else times.isha }

/-- The part of `compute_times` that produces the raw record handed to the
high-latitude corrector (source: `compute_times` up to the
`adjust_high_latitudes` call): dhuhr, sunrise, sunset, fajr, asr, maghrib,
isha and imsak.  The unused local binding `fajr_angle` of the source (it is
computed from `imsak` but line 145 passes `method_settings.fajr` directly)
has no observable effect and is omitted.  The remaining three fields keep
the `RawPrayerTimes::default()` zeros of the source. -/
def computeRawBeforeHighLat (latitude elevation : ℝ) (s : MethodSettings)
    (eqt decl : ℝ) : Except ApiError RawTimes := do
  let dhuhr := midDay eqt
  let riseSet := riseSetAngle elevation
  let sunrise ← sunAngleTime latitude riseSet eqt decl (-1)
  let sunset ← sunAngleTime latitude riseSet eqt decl 1
  let fajr ← sunAngleTime latitude s.fajr eqt decl (-1)
  let asr ← asrTime latitude (asrFactorOf s.school) eqt decl
  let maghrib ← match s.maghrib with
    | .Angle a => sunAngleTime latitude a eqt decl 1
    | .Minute m => pure (sunset + m / 60)
  let isha ← match s.isha with
    | .Angle a => sunAngleTime latitude a eqt decl 1
    | .Minute m => pure (maghrib + m / 60)
  let imsak ← match s.imsak with
    | .Angle a => sunAngleTime latitude a eqt decl (-1)
    | .Minute m => pure (fajr - m / 60)
  pure { imsak := imsak, fajr := fajr, sunrise := sunrise, dhuhr := dhuhr,
         asr := asr, sunset := sunset, maghrib := maghrib, isha := isha }

/-- The tail of `compute_times` (source lines after the high-latitude
adjustment): night length, midnight per convention, first/last third, then
the longitude correction with a `fix_hour` applied to every one of the
eleven fields (dhuhr additionally receives the method's minute offset). -/
def finalizeTimes (longitude : ℝ) (s : MethodSettings) (t : RawTimes) : RawTimes :=
  let night := fixHour (t.sunrise - t.sunset)
  let midnight := match s.midnight with
    | .Standard => t.sunset + night / 2
    | .Jafari => t.sunset + fixHour (t.fajr - t.sunset) / 2
  let firstThird := t.sunset + night / 3
  let lastThird := t.sunset + night * 2 / 3
  let lngDiff := longitude / 15
  { imsak := fixHour (t.imsak - lngDiff)
    fajr := fixHour (t.fajr - lngDiff)
    sunrise := fixHour (t.sunrise - lngDiff)
    dhuhr := fixHour (t.dhuhr - lngDiff + s.dhuhr / 60)
    asr := fixHour (t.asr - lngDiff)
    sunset := fixHour (t.sunset - lngDiff)
    maghrib := fixHour (t.maghrib - lngDiff)
    isha := fixHour (t.isha - lngDiff)
    midnight := fixHour (midnight - lngDiff)
    first_third := fixHour (firstThird - lngDiff)
    last_third := fixHour (lastThird - lngDiff) }

/-- `compute_times` from a precomputed sun position: raw record, optional
high-latitude adjustment, then the finalization pass. -/
def computeTimesAux (latitude longitude elevation : ℝ) (s : MethodSettings)
    (eqt decl : ℝ) : Except ApiError RawTimes :=
  (computeRawBeforeHighLat latitude elevation s eqt decl).map fun pre =>
    finalizeTimes longitude s
      (match s.high_lat with
       | some rule => adjustHighLatitudes s pre rule
       | none => pre)

/-- The full `compute_times` for one date, given as a Julian Day
(source: `compute_times`; the date-to-`jd` step is `julian_date`). -/
def computeTimes (latitude longitude elevation : ℝ) (s : MethodSettings)
    (jd : ℝ) : Except ApiError RawTimes :=
  computeTimesAux latitude longitude elevation s (sunPosition jd).1 (sunPosition jd).2

/-- Qibla bearing of the prayer-times engine (source:
`PrayerCalculator::calculate_qibla_direction`): atan2 formula with
`cos(lat1)·tan(lat2) - sin(lat1)·cos(dlng)` as the second argument, then
`fix_angle`. -/
def engineQibla (latitude longitude : ℝ) : ℝ :=
  let kaabaLat : ℝ := 21.4224779
  let kaabaLng : ℝ := 39.8251832
  let lat1 := dtr latitude
  let lng1 := dtr longitude
  let lat2 := dtr kaabaLat
  let lng2 := dtr kaabaLng
  let dlng := lng2 - lng1
  let y := sin dlng
  let x := cos lat1 * tan lat2 - sin lat1 * cos dlng
  fixAngle (rtd (atan2 y x))

/-- Qibla bearing of the qibla-api (source:
`QiblaCalculator::calculate_bearing_to_kaaba`): the standard spherical
formula, an add-360-if-negative normalization, then rounding to six decimal
places (`round_to_precision`, where Rust `round` rounds half away from
zero, which agrees with `⌊x + 1/2⌋` for the nonnegative values reached
here). -/
def qiblaApiBearing (latitude longitude : ℝ) : ℝ :=
  let kaabaLat : ℝ := 21.4224779
  let kaabaLng : ℝ := 39.8251832
  let lat1 := dtr latitude
  let lon1 := dtr longitude
  let lat2 := dtr kaabaLat
  let lon2 := dtr kaabaLng
  let dlon := lon2 - lon1
  let y := sin dlon * cos lat2
  let x := cos lat1 * sin lat2 - sin lat1 * cos lat2 * cos dlon
  let bearingDegrees := rtd (atan2 y x)
  let normalized := if bearingDegrees < 0 then bearingDegrees + 360 else bearingDegrees
  (round (normalized * 10 ^ 6) : ℤ) / 10 ^ 6

end

/-- Per-field integer minute adjustments (source: `models::Adjustments`,
`i8` fields; embedded as `ℤ`). -/
structure Adjustments where
  imsak : ℤ := 0
  fajr : ℤ := 0
  sunrise : ℤ := 0
  dhuhr : ℤ := 0
  asr : ℤ := 0
  sunset : ℤ := 0
  maghrib : ℤ := 0
  isha : ℤ := 0
  midnight : ℤ := 0
  first_third : ℤ := 0
  last_third : ℤ := 0

/-- Formatted per-day output record (source: `models::PrayerTimes`,
thirteen strings). -/
structure PrayerTimesR where
  imsak : String
  fajr : String
  sunrise : String
  dhuhr : String
  asr : String
  sunset : String
  maghrib : String
  isha : String
  midnight : String
  first_third : String
  last_third : String
  date : String
  hijri : String
  deriving Repr, DecidableEq, Inhabited

/-- Zero-pads an integer to two digits, as chrono's `%d`, `%m`, `%H`, `%M`
render nonnegative field values. -/
def pad2 (n : ℤ) : String :=
  if 0 ≤ n ∧ n < 10 then "0" ++ toString n else toString n

/-- Pads a year to four digits, as chrono's `%Y` renders years. -/
def pad4 (n : ℤ) : String :=
  if 0 ≤ n ∧ n < 10 then "000" ++ toString n
  else if 0 ≤ n ∧ n < 100 then "00" ++ toString n
  else if 0 ≤ n ∧ n < 1000 then "0" ++ toString n
  else toString n

/-- Civil date from a day count (days since 1970-01-01).  Models the
Gregorian calendar arithmetic of the external chrono collaborator
(`NaiveDate` plus a `Duration`), via the standard days-to-civil
algorithm. -/
def civilFromDays (z0 : ℤ) : ℤ × ℤ × ℤ :=
  let z := z0 + 719468
  let era := Int.fdiv z 146097
  let doe := z - era * 146097
  let yoe := Int.fdiv (doe - Int.fdiv doe 1460 + Int.fdiv doe 36524 - Int.fdiv doe 146096) 365
  let y := yoe + era * 400
  let doy := doe - (365 * yoe + Int.fdiv yoe 4 - Int.fdiv yoe 100)
  let mp := Int.fdiv (5 * doy + 2) 153
  let d := doy - Int.fdiv (153 * mp + 2) 5 + 1
  let m := mp + (if mp < 10 then 3 else -9)
  (y + (if m ≤ 2 then 1 else 0), m, d)

/-- Day count (days since 1970-01-01) of a civil date; inverse of
`civilFromDays`, modelling the chrono collaborator. -/
def daysFromCivil (y m d : ℤ) : ℤ :=
  let y2 := y - (if m ≤ 2 then 1 else 0)
  let era := Int.fdiv y2 400
  let yoe := y2 - era * 400
  let doy := Int.fdiv (153 * (m + (if 2 < m then -3 else 9)) + 2) 5 + d - 1
  let doe := yoe * 365 + Int.fdiv yoe 4 - Int.fdiv yoe 100 + doy
  era * 146097 + doe - 719468

noncomputable section

open Real

/-- Renders one raw time as a zoned timestamp string (source: `format_time`):
total minutes are `round(time * 60) + adjustment`, added as a duration to
the date's midnight, then rendered as `%d/%m/%Y %H:%M` (the attached fixed
offset does not change the rendered local fields).  The `is_nan` early
return of the source has no counterpart over `ℝ`. -/
def formatTime (time : ℝ) (dateDays adjustment : ℤ) : String :=
  let total : ℤ := round (time * 60) + adjustment
  let dayShift := Int.fdiv total 1440
  let minOfDay := total - dayShift * 1440
  let c := civilFromDays (dateDays + dayShift)
  pad2 c.2.2 ++ "/" ++ pad2 c.2.1 ++ "/" ++ pad4 c.1 ++ " "
    ++ pad2 (Int.fdiv minOfDay 60) ++ ":" ++ pad2 (minOfDay - Int.fdiv minOfDay 60 * 60)

/-- The full input tuple of one engine invocation
(source: `PrayerCalculator` state plus the date argument of
`calculate_prayer_times`).  The Gregorian→Hijri conversion is the external
`hijri_date` collaborator, taken as a pure function of the date. -/
structure EngineInput where
  latitude : ℝ
  longitude : ℝ
  elevation : ℝ
  settings : MethodSettings
  adjustments : Adjustments
  year : ℤ
  month : ℤ
  day : ℤ
  hijriOf : ℤ → ℤ → ℤ → Except ApiError String

/-- One full engine invocation (source: `calculate_prayer_times`): computes
the raw times, the Hijri date, and formats all eleven fields plus the two
date strings. -/
def calculatePrayerTimes (input : EngineInput) : Except ApiError PrayerTimesR := do
  let times ← computeTimes input.latitude input.longitude input.elevation
    input.settings (julianDate input.year input.month input.day)
  let hijri ← input.hijriOf input.year input.month input.day
  let days := daysFromCivil input.year input.month input.day
  let adj := input.adjustments
  pure
    { imsak := formatTime times.imsak days adj.imsak
      fajr := formatTime times.fajr days adj.fajr
      sunrise := formatTime times.sunrise days adj.sunrise
      dhuhr := formatTime times.dhuhr days adj.dhuhr
      asr := formatTime times.asr days adj.asr
      sunset := formatTime times.sunset days adj.sunset
      maghrib := formatTime times.maghrib days adj.maghrib
      isha := formatTime times.isha days adj.isha
      midnight := formatTime times.midnight days adj.midnight
      first_third := formatTime times.first_third days adj.first_third
      last_third := formatTime times.last_third days adj.last_third
      date := pad2 input.day ++ "/" ++ pad2 input.month ++ "/" ++ pad4 input.year
      hijri := hijri }

end

/-- Requested date span (source: `models::Timespan`; day counts are `u16`,
embedded as `ℕ`). -/
inductive Timespan where
  | DaysFromToday (days : ℕ)
  | DaysFromDate (date : String) (days : ℕ)
  | Month (name : String) (year : ℤ)
  | GregorianYear (year : ℤ)
  | HijriYear (year : ℤ)
  deriving Repr, DecidableEq

/-- The next upcoming prayer (source: `models::NextPrayer`). -/
structure NextPrayer where
  name : String
  time : String
  deriving Repr, DecidableEq

/-- Checks if a year is a leap year (source: `is_leap_year`). -/
def isLeapYear (year : ℤ) : Bool :=
  (year % 4 == 0 && year % 100 != 0) || (year % 400 == 0)

/-- Parses a month name into its number (source: `parse_month_name`). -/
def parseMonthName (monthName : String) : Except ApiError ℕ :=
  let s := monthName.toLower
  if s = "january" ∨ s = "jan" then .ok 1
  else if s = "february" ∨ s = "feb" then .ok 2
  else if s = "march" ∨ s = "mar" then .ok 3
  else if s = "april" ∨ s = "apr" then .ok 4
  else if s = "may" then .ok 5
  else if s = "june" ∨ s = "jun" then .ok 6
  else if s = "july" ∨ s = "jul" then .ok 7
  else if s = "august" ∨ s = "aug" then .ok 8
  else if s = "september" ∨ s = "sep" then .ok 9
  else if s = "october" ∨ s = "oct" then .ok 10
  else if s = "november" ∨ s = "nov" then .ok 11
  else if s = "december" ∨ s = "dec" then .ok 12
  else .error (.InvalidInput ("Invalid month name: " ++ monthName))

/-- Number of days in a month (source: `days_in_month`). -/
def daysInMonth (year : ℤ) (month : ℕ) : Except ApiError ℕ :=
  if month = 1 ∨ month = 3 ∨ month = 5 ∨ month = 7 ∨ month = 8 ∨ month = 10 ∨ month = 12
  then .ok 31
  else if month = 4 ∨ month = 6 ∨ month = 9 ∨ month = 11 then .ok 30
  else if month = 2 then .ok (if isLeapYear year then 29 else 28)
  else .error (.InvalidInput ("Invalid month: " ++ toString month))

/-- Day count of a parsed timespan (source: `parse_timespan`, second
component of the returned pair).  For a single `DaysFromToday` day the
source computes two days "to get next prayer correct" and removes the
extra one later.  The start-date component, the DD/MM/YYYY string parsing
and the Hijri-year start resolution are chrono / hijri_date collaborator
work not bearing on the day count and are not modelled. -/
def dayCountOf (timespan : Timespan) : Except ApiError ℕ :=
  match timespan with
  | .DaysFromToday days => .ok (if days = 1 then 2 else days)
  | .DaysFromDate _ days => .ok days
  | .Month name year => do
      let m ← parseMonthName name
      daysInMonth year m
  | .GregorianYear year => .ok (if isLeapYear year then 366 else 365)
  | .HijriYear _ => .ok 355

/-- One record's scan of the six prayers examined by `calculate_next_prayer`
(source: the `prayer_times` array and inner loop): the first of Imsak, Fajr,
Dhuhr, Asr, Maghrib, Isha whose string parses to a timestamp strictly after
`now`.  Timestamp parsing is a chrono collaborator, abstracted as
`parse` over an ordered time axis `ℤ`. -/
def findInRecord (parse : String → Option ℤ) (now : ℤ) (r : PrayerTimesR) :
    Option NextPrayer :=
  [("Imsak", r.imsak), ("Fajr", r.fajr), ("Dhuhr", r.dhuhr),
   ("Asr", r.asr), ("Maghrib", r.maghrib), ("Isha", r.isha)].findSome?
    fun p => match parse p.2 with
      | some t => if now < t then some ⟨p.1, p.2⟩ else none
      | none => none

/-- Next-prayer derivation (source: `calculate_next_prayer`): only for the
`DaysFromToday` span, scanning the produced records in order against the
current time. -/
def calculateNextPrayer (parse : String → Option ℤ) (timespan : Timespan)
    (now : ℤ) (prayers : List PrayerTimesR) : Option NextPrayer :=
  match timespan with
  | .DaysFromToday _ => prayers.findSome? (findInRecord parse now)
  | _ => none

/-- The slice of `PrayerTimesResponse` the handler claims concern
(source: `models::PrayerTimesResponse`; qibla direction and metadata echo
are independent of the day loop and omitted). -/
structure HandlerResponse where
  next : Option NextPrayer
  prayers : List PrayerTimesR
  deriving Repr, DecidableEq

/-- The day-loop portion of `prayer_times_handler` (source lines from the
`parse_timespan` call to the response construction): parse the day count,
enforce the 366-day cap, compute one record per day, derive the next
prayer from the full computed list, then drop the extra record in the
`DaysFromToday(1)` case.  The per-day calculator is the engine invocation
above, abstracted as the pure function `calcDay` of the day index (the
cache, validation and timezone steps that precede this slice do not touch
the day loop). -/
def handlerCore (calcDay : ℕ → PrayerTimesR) (parse : String → Option ℤ)
    (timespan : Timespan) (now : ℤ) : Except ApiError HandlerResponse := do
  let dayCount ← dayCountOf timespan
  if dayCount > 366 then
    .error (.InvalidInput ("Day count cannot exceed 366 days"))
  else
    let prayers := (List.range dayCount).map calcDay
    let next := calculateNextPrayer parse timespan now prayers
    let prayers := if timespan = .DaysFromToday 1 then prayers.dropLast else prayers
    pure { next := next, prayers := prayers }

/-! Derived definitions used only to state the verification theorems. -/

noncomputable section

open Real

/-- Projects the value out of a fallible hour computation (0 on error);
used to state theorems about the successful branch. -/
def timeOf (r : Except ApiError ℝ) : ℝ :=
  match r with
  | .ok v => v
  | .error _ => 0

/-- Projects the record out of a fallible raw-times computation
(the zero record on error). -/
def rawOf (r : Except ApiError RawTimes) : RawTimes :=
  match r with
  | .ok t => t
  | .error _ => {}

/-- An hour value inside its canonical domain `[0, 24)`. -/
def inDay (x : ℝ) : Prop := 0 ≤ x ∧ x < 24

/-- All eleven fields of a raw record inside `[0, 24)`. -/
def allInDay (t : RawTimes) : Prop :=
  inDay t.imsak ∧ inDay t.fajr ∧ inDay t.sunrise ∧ inDay t.dhuhr ∧
  inDay t.asr ∧ inDay t.sunset ∧ inDay t.maghrib ∧ inDay t.isha ∧
  inDay t.midnight ∧ inDay t.first_third ∧ inDay t.last_third

/-- `allInDay` on the success branch of a fallible computation (trivially
true on the error branch, where no record is produced). -/
def allInDayE (r : Except ApiError RawTimes) : Prop :=
  match r with
  | .ok t => allInDay t
  | .error _ => True

/-- The AngleBased branch written from the spec's words (refinement
comparison definition; it is not a transcription of the source):
`fajr_portion = (fajr_angle/60)·night_length`, and
`isha_portion = (isha_angle/60)·night_length` when the configured Isha is
an angle but `(18/60)·night_length` when it is a minute offset; each time
is overridden exactly when its angular distance from sunrise/sunset
exceeds its portion. -/
def angleBasedSpec (s : MethodSettings) (t : RawTimes) : RawTimes :=
  let night := fixHour (t.sunrise - t.sunset)
  let fajrPortion := s.fajr / 60 * night
  let ishaPortion := (match s.isha with | .Angle a => a | _ => 18) / 60 * night
  { t with
    fajr := if fixHour (t.sunrise - t.fajr) > fajrPortion
      then t.sunrise - fajrPortion else t.fajr,
    isha := if fixHour (t.isha - t.sunset) > ishaPortion
      then t.sunset + ishaPortion else t.isha }

/-- Replaces only the Isha selector of a settings record. -/
def withIsha (s : MethodSettings) (i : MinuteOrAngle) : MethodSettings :=
  { s with isha := i }

/-- The `Mwl` row of the named-method table
(source: `StandardMethod::to_method_settings`). -/
def mwlSettings : MethodSettings :=
  { fajr := 18, isha := .Angle 17, midnight := .Standard,
    maghrib := .Minute 0, imsak := .Minute 10, dhuhr := 0,
    shafaq := none, school := .Standard, high_lat := none }

/-- The MWL settings with the NightMiddle high-latitude rule enabled (as a
request-level override would produce). -/
def nightMiddleMwl : MethodSettings :=
  { mwlSettings with high_lat := some HighLatitudeRule.NightMiddle }

end

/-! Helper lemmas. -/

open Real

theorem fix_mem {a b : ℝ} (hb : 0 < b) : 0 ≤ fix a b ∧ fix a b < b := by
  have hb0 : b ≠ 0 := ne_of_gt hb
  have h1 : a - b * ((⌊a / b⌋ : ℤ) : ℝ) = b * Int.fract (a / b) := by
    rw [Int.fract]
    field_simp
  have h2 : 0 ≤ b * Int.fract (a / b) := mul_nonneg hb.le (Int.fract_nonneg _)
  have h3 : b * Int.fract (a / b) < b := by
    have h4 := Int.fract_lt_one (a / b)
    nlinarith
  unfold fix
  simp only [h1, not_lt.2 h2, if_false]
  exact ⟨h2, h3⟩

theorem fix_eq_self {a b : ℝ} (h0 : 0 ≤ a) (hab : a < b) : fix a b = a := by
  have hb : 0 < b := lt_of_le_of_lt h0 hab
  have hfl : ⌊a / b⌋ = 0 := by
    rw [Int.floor_eq_zero_iff]
    exact ⟨div_nonneg h0 hb.le, (div_lt_one hb).2 hab⟩
  simp [fix, hfl, not_lt.2 h0]

theorem fixHour_mem (a : ℝ) : 0 ≤ fixHour a ∧ fixHour a < 24 :=
  fix_mem (by norm_num)

theorem fixHour_eq_self {a : ℝ} (h0 : 0 ≤ a) (h24 : a < 24) : fixHour a = a :=
  fix_eq_self h0 h24

theorem fixAngle_mem (a : ℝ) : 0 ≤ fixAngle a ∧ fixAngle a < 360 :=
  fix_mem (by norm_num)

theorem dtr_rtd (x : ℝ) : dtr (rtd x) = x := by
  unfold dtr rtd
  field_simp

theorem rtd_lt_rtd {x y : ℝ} (h : x < y) : rtd x < rtd y := by
  unfold rtd
  have h180 : x * 180 < y * 180 := by nlinarith
  exact (div_lt_div_iff_of_pos_right pi_pos).2 h180

theorem sunAngleTime_ok {latitude eqt decl : ℝ} (angle direction : ℝ)
    (h : cos (dtr decl) * cos (dtr latitude) ≠ 0) :
    sunAngleTime latitude angle eqt decl direction =
      .ok (midDay eqt + direction * (rtd (arccos (cosRange latitude angle decl)) / 15)) := by
  unfold sunAngleTime
  simp [h]

theorem atan2_mem (y x : ℝ) : -π < atan2 y x ∧ atan2 y x ≤ π := by
  have harct : ∀ z : ℝ, -(π / 2) < arctan z ∧ arctan z < π / 2 :=
    fun z => ⟨neg_pi_div_two_lt_arctan z, arctan_lt_pi_div_two z⟩
  have hpi : 0 < π := pi_pos
  unfold atan2
  rcases lt_trichotomy 0 x with hx | hx | hx
  · rw [if_pos hx]
    have h := harct (y / x)
    constructor <;> linarith [h.1, h.2]
  · rw [if_neg (by rw [← hx]; exact lt_irrefl 0), if_neg (by rw [← hx]; exact lt_irrefl 0)]
    by_cases hy : 0 < y
    · rw [if_pos hy]; constructor <;> linarith
    · rw [if_neg hy]
      by_cases hy2 : y < 0
      · rw [if_pos hy2]; constructor <;> linarith
      · rw [if_neg hy2]; constructor <;> linarith
  · rw [if_neg (by linarith), if_pos hx]
    by_cases hy : 0 ≤ y
    · rw [if_pos hy]
      have hle : arctan (y / x) ≤ 0 := by
        have : y / x ≤ 0 := div_nonpos_of_nonneg_of_nonpos hy hx.le
        calc arctan (y / x) ≤ arctan 0 := arctan_strictMono.monotone this
        _ = 0 := arctan_zero
      have h := harct (y / x)
      constructor <;> linarith [h.1]
    · rw [if_neg hy]
      push_neg at hy
      have hgt : 0 < arctan (y / x) := by
        have : (0 : ℝ) < y / x := div_pos_of_neg_of_neg hy hx
        calc (0 : ℝ) = arctan 0 := arctan_zero.symm
        _ < arctan (y / x) := arctan_strictMono this
      have h := harct (y / x)
      constructor <;> linarith [h.2]

theorem rtd_le_rtd {x y : ℝ} (h : x ≤ y) : rtd x ≤ rtd y := by
  unfold rtd
  have h180 : x * 180 ≤ y * 180 := by nlinarith
  exact (div_le_div_iff_of_pos_right pi_pos).2 h180

theorem rtd_pi : rtd π = 180 := by
  unfold rtd
  field_simp

theorem rtd_zero : rtd 0 = 0 := by
  unfold rtd
  ring

theorem atan2_pos_x {x : ℝ} (y : ℝ) (h : 0 < x) : atan2 y x = arctan (y / x) := by
  unfold atan2
  rw [if_pos h]

theorem arctan_lt_self {u : ℝ} (h : 0 < u) : arctan u < u := by
  rcases lt_or_le u (π / 2) with hu | hu
  · have ht : u < tan u := lt_tan h hu
    calc arctan u < arctan (tan u) := arctan_strictMono ht
    _ = u := arctan_tan (by linarith [pi_pos]) hu
  · exact lt_of_lt_of_le (arctan_lt_pi_div_two u) hu

theorem le_arctan_of_nonpos {t : ℝ} (h : t ≤ 0) : t ≤ arctan t := by
  rcases eq_or_lt_of_le h with h0 | h0
  · rw [h0, arctan_zero]
  · have hu : 0 < -t := by linarith
    have := arctan_lt_self hu
    rw [arctan_neg] at *
    have h2 : arctan (-t) < -t := arctan_lt_self hu
    rw [show t = -(-t) by ring, arctan_neg]
    linarith

theorem fix_eval {a b : ℝ} (k : ℤ) (hb : 0 < b) (h1 : 0 ≤ a - b * k)
    (h2 : a - b * k < b) : fix a b = a - b * k := by
  have hk : ⌊a / b⌋ = k := by
    rw [Int.floor_eq_iff]
    constructor
    · rw [le_div_iff₀ hb]
      linarith
    · rw [div_lt_iff₀ hb]
      linarith
  unfold fix
  rw [hk, if_neg (not_lt.2 h1)]

theorem fixHour_eval {a : ℝ} (k : ℤ) (h1 : 0 ≤ a - 24 * k) (h2 : a - 24 * k < 24) :
    fixHour a = a - 24 * k :=
  fix_eval k (by norm_num) h1 h2

/-! Claim theorems. -/

/-- C1: the hour-angle solver `sun_angle_time` fails exactly when the
denominator `cos(decl)·cos(lat)` is zero, and then with precisely the
`Calculation` error of the source; in every other case it returns a value
(the acos argument having been clamped into `[-1, 1]` inside `cosRange`),
so no other error path exists in the solver. -/
theorem sun_angle_time_error_iff (latitude angle eqt decl direction : ℝ) :
    (sunAngleTime latitude angle eqt decl direction =
        .error (.Calculation ("Division by zero in sun angle calculation")) ↔
      cos (dtr decl) * cos (dtr latitude) = 0) ∧
    ((∃ v, sunAngleTime latitude angle eqt decl direction = .ok v) ↔
      cos (dtr decl) * cos (dtr latitude) ≠ 0) := by
  unfold sunAngleTime
  by_cases h : cos (dtr decl) * cos (dtr latitude) = 0 <;> simp [h]

/-- C10: every trigonometric inversion of the pipeline receives an
in-domain argument: the acos argument of the hour-angle solver is clamped
into `[-1, 1]`, and the asin argument of the declination is a product of
two sines, hence also in `[-1, 1]`.  Over the real-number embedding no NaN
can therefore arise from `compute_times`, and the `is_nan` guards of
`adjust_high_latitudes` and the "Invalid Time" branch of `format_time`
are unreachable from `calculate_prayer_times`. -/
theorem inversion_arguments_in_domain (latitude angle decl jd : ℝ) :
    (-1 ≤ cosRange latitude angle decl ∧ cosRange latitude angle decl ≤ 1) ∧
    (-1 ≤ declArg jd ∧ declArg jd ≤ 1) := by
  refine ⟨⟨?_, ?_⟩, ?_, ?_⟩
  · exact le_min (le_max_right _ _) (by norm_num)
  · exact min_le_right _ _
  · unfold declArg
    nlinarith [neg_one_le_sin (dtr (sunObliquity jd)), sin_le_one (dtr (sunObliquity jd)),
      neg_one_le_sin (dtr (sunEclLng jd)), sin_le_one (dtr (sunEclLng jd))]
  · unfold declArg
    nlinarith [neg_one_le_sin (dtr (sunObliquity jd)), sin_le_one (dtr (sunObliquity jd)),
      neg_one_le_sin (dtr (sunEclLng jd)), sin_le_one (dtr (sunEclLng jd))]

/-- C5: under the AngleBased rule the Fajr portion is
`(fajr_angle/60)·night_length` and the Isha portion is
`(isha_angle/60)·night_length` for an angle-based Isha but
`(18/60)·night_length` for a minute-offset Isha (the hard-coded 18° default
is substituted): the source branch coincides with the spec formula, and a
minute-offset Isha behaves exactly as if the angle 18 had been
configured. -/
theorem angle_based_portions (s : MethodSettings) (t : RawTimes) (m : ℝ) :
    adjustHighLatitudes s t .AngleBased = angleBasedSpec s t ∧
    adjustHighLatitudes (withIsha s (.Minute m)) t .AngleBased =
      adjustHighLatitudes (withIsha s (.Angle 18)) t .AngleBased := by
  constructor
  · rfl
  · rfl

/-- C6: for a `DaysFromToday(1)` request the handler computes two internal
days, the final response contains exactly the one first-day record (the
extra day is removed by the `pop`), and the `next` field is still the next
upcoming prayer obtained by scanning both produced records against the
current time. -/
theorem days_from_today_one (calcDay : ℕ → PrayerTimesR)
    (parse : String → Option ℤ) (now : ℤ) :
    dayCountOf (.DaysFromToday 1) = .ok 2 ∧
    handlerCore calcDay parse (.DaysFromToday 1) now =
      .ok { next := calculateNextPrayer parse (.DaysFromToday 1) now
              [calcDay 0, calcDay 1],
            prayers := [calcDay 0] } := by
  constructor
  · rfl
  · rfl

/-- C7: whenever the parsed timespan yields a day count above 366 the
handler stops with the `InvalidInput` cap error before computing any prayer
times, and every day count up to and including 366 passes the cap check
and produces a response. -/
theorem day_count_cap (calcDay : ℕ → PrayerTimesR) (parse : String → Option ℤ)
    (timespan : Timespan) (now : ℤ) (n : ℕ) (h : dayCountOf timespan = .ok n) :
    (366 < n → handlerCore calcDay parse timespan now =
        .error (.InvalidInput ("Day count cannot exceed 366 days"))) ∧
    (n ≤ 366 → handlerCore calcDay parse timespan now =
        .ok { next := calculateNextPrayer parse timespan now
                ((List.range n).map calcDay),
              prayers := if timespan = .DaysFromToday 1
                then ((List.range n).map calcDay).dropLast
                else (List.range n).map calcDay }) := by
  constructor
  · intro h366
    unfold handlerCore
    rw [h]
    simp only [Bind.bind, Except.bind]
    rw [if_pos h366]
  · intro h366
    unfold handlerCore
    rw [h]
    simp only [Bind.bind, Except.bind]
    rw [if_neg (not_lt.2 h366)]
    rfl

/-- Witness for C7 at concrete inputs: day count 367 (DaysFromToday 367) is
rejected with the cap error, day count 2 (DaysFromToday 2) passes the check
and produces a response, and the leap Gregorian year 2024 parses to the
boundary count 366. -/
theorem day_count_cap_witness :
    (dayCountOf (.DaysFromToday 367) = .ok 367 ∧
      handlerCore (fun _ => default) (fun _ => none) (.DaysFromToday 367) 0 =
        .error (.InvalidInput ("Day count cannot exceed 366 days"))) ∧
    (dayCountOf (.DaysFromToday 2) = .ok 2 ∧
      handlerCore (fun _ => default) (fun _ => none) (.DaysFromToday 2) 0 =
        .ok { next := none, prayers := [default, default] }) ∧
    dayCountOf (.GregorianYear 2024) = .ok 366 := by
  refine ⟨⟨rfl, ?_⟩, ⟨rfl, ?_⟩, rfl⟩
  · exact (day_count_cap (fun _ => default) (fun _ => none)
      (.DaysFromToday 367) 0 367 rfl).1 (by norm_num)
  · have h := (day_count_cap (fun _ => default) (fun _ => none)
      (.DaysFromToday 2) 0 2 rfl).2 (by norm_num)
    rw [h]
    rfl

/-- C3 counterexample: the claim "applying adjust_high_latitudes never moves
Fajr later ... than the uncorrected values" fails at a concrete record: with
the MWL settings, the NightMiddle rule, sunrise 6, sunset 18 (night 12,
portion 6) and an uncorrected Fajr of -2 (eight hours before sunrise), the
corrector sets Fajr to 6 - 6 = 0, which is later than -2. -/
theorem high_lat_moves_fajr_later :
    ¬ ((adjustHighLatitudes mwlSettings
          { fajr := -2, sunrise := 6, sunset := 18, isha := 19 }
          .NightMiddle).fajr ≤
        ({ fajr := -2, sunrise := 6, sunset := 18, isha := 19 } : RawTimes).fajr) := by
  have hnight : fixHour ((-12 : ℝ)) = 12 := by
    have h := fixHour_eval (a := (-12 : ℝ)) (-1) (by norm_num) (by norm_num)
    norm_num at h
    exact h
  have hguard : fixHour ((8 : ℝ)) = 8 := fixHour_eq_self (by norm_num) (by norm_num)
  simp only [adjustHighLatitudes, fajrPortionOf, ishaPortionOf]
  norm_num [hnight, hguard]

/-- C3 (amended): for raw records whose Fajr is within one day before
sunrise and whose Isha is within one day after sunset, and nonnegative
configured angles, a high-latitude rule never moves Fajr earlier or Isha
later: it only pulls both closer to sunrise/sunset (their distances stay
nonnegative and do not grow), and it leaves a time unchanged when that time
is already within the rule's portion of the night. -/
theorem high_lat_monotone (s : MethodSettings) (t : RawTimes)
    (rule : HighLatitudeRule)
    (hf1 : 0 ≤ t.sunrise - t.fajr) (hf2 : t.sunrise - t.fajr < 24)
    (hi1 : 0 ≤ t.isha - t.sunset) (hi2 : t.isha - t.sunset < 24)
    (hfa : 0 ≤ s.fajr) (hia : 0 ≤ ishaAngleOf s) :
    t.fajr ≤ (adjustHighLatitudes s t rule).fajr ∧
    (adjustHighLatitudes s t rule).isha ≤ t.isha ∧
    0 ≤ t.sunrise - (adjustHighLatitudes s t rule).fajr ∧
    0 ≤ (adjustHighLatitudes s t rule).isha - t.sunset ∧
    (fixHour (t.sunrise - t.fajr) ≤
        fajrPortionOf s rule (fixHour (t.sunrise - t.sunset)) →
      (adjustHighLatitudes s t rule).fajr = t.fajr) ∧
    (fixHour (t.isha - t.sunset) ≤
        ishaPortionOf s rule (fixHour (t.sunrise - t.sunset)) →
      (adjustHighLatitudes s t rule).isha = t.isha) := by
  have hnight : 0 ≤ fixHour (t.sunrise - t.sunset) := (fixHour_mem _).1
  have hpf : 0 ≤ fajrPortionOf s rule (fixHour (t.sunrise - t.sunset)) := by
    cases rule
    · exact div_nonneg hnight (by norm_num)
    · exact div_nonneg hnight (by norm_num)
    · exact mul_nonneg (div_nonneg hfa (by norm_num)) hnight
  have hpi : 0 ≤ ishaPortionOf s rule (fixHour (t.sunrise - t.sunset)) := by
    cases rule
    · exact div_nonneg hnight (by norm_num)
    · exact div_nonneg hnight (by norm_num)
    · exact mul_nonneg (div_nonneg hia (by norm_num)) hnight
  have hFfix : fixHour (t.sunrise - t.fajr) = t.sunrise - t.fajr :=
    fixHour_eq_self hf1 hf2
  have hIfix : fixHour (t.isha - t.sunset) = t.isha - t.sunset :=
    fixHour_eq_self hi1 hi2
  have hfajr : (adjustHighLatitudes s t rule).fajr =
      if fixHour (t.sunrise - t.fajr) >
          fajrPortionOf s rule (fixHour (t.sunrise - t.sunset))
        then t.sunrise - fajrPortionOf s rule (fixHour (t.sunrise - t.sunset))
        else t.fajr := rfl
  have hisha : (adjustHighLatitudes s t rule).isha =
      if fixHour (t.isha - t.sunset) >
          ishaPortionOf s rule (fixHour (t.sunrise - t.sunset))
        then t.sunset + ishaPortionOf s rule (fixHour (t.sunrise - t.sunset))
        else t.isha := rfl
  rw [hfajr, hisha]
  by_cases hgF : fixHour (t.sunrise - t.fajr) >
      fajrPortionOf s rule (fixHour (t.sunrise - t.sunset)) <;>
  by_cases hgI : fixHour (t.isha - t.sunset) >
      ishaPortionOf s rule (fixHour (t.sunrise - t.sunset))
  · rw [if_pos hgF, if_pos hgI]
    rw [hFfix] at hgF
    rw [hIfix] at hgI
    exact ⟨by linarith, by linarith, by linarith, by linarith,
      fun hle => absurd (hFfix ▸ hle) (not_le.2 hgF),
      fun hle => absurd (hIfix ▸ hle) (not_le.2 hgI)⟩
  · rw [if_pos hgF, if_neg hgI]
    rw [hFfix] at hgF
    exact ⟨by linarith, le_refl _, by linarith, by linarith,
      fun hle => absurd (hFfix ▸ hle) (not_le.2 hgF),
      fun _ => rfl⟩
  · rw [if_neg hgF, if_pos hgI]
    rw [hIfix] at hgI
    exact ⟨le_refl _, by linarith, by linarith, by linarith,
      fun _ => rfl,
      fun hle => absurd (hIfix ▸ hle) (not_le.2 hgI)⟩
  · rw [if_neg hgF, if_neg hgI]
    exact ⟨le_refl _, le_refl _, by linarith, by linarith,
      fun _ => rfl, fun _ => rfl⟩

/-- C3 witness: the amended monotonicity theorem applied at a concrete
record (Fajr 4, sunrise 6, sunset 18, Isha 19) with the MWL settings and
the NightMiddle rule. -/
theorem high_lat_monotone_witness :
    ((0 : ℝ) ≤ ({ fajr := 4, sunrise := 6, sunset := 18, isha := 19 } : RawTimes).sunrise -
        ({ fajr := 4, sunrise := 6, sunset := 18, isha := 19 } : RawTimes).fajr) ∧
    (({ fajr := 4, sunrise := 6, sunset := 18, isha := 19 } : RawTimes).sunrise -
        ({ fajr := 4, sunrise := 6, sunset := 18, isha := 19 } : RawTimes).fajr < 24) ∧
    ((0 : ℝ) ≤ mwlSettings.fajr) ∧ ((0 : ℝ) ≤ ishaAngleOf mwlSettings) ∧
    (({ fajr := 4, sunrise := 6, sunset := 18, isha := 19 } : RawTimes).fajr ≤
      (adjustHighLatitudes mwlSettings
        { fajr := 4, sunrise := 6, sunset := 18, isha := 19 } .NightMiddle).fajr) ∧
    ((adjustHighLatitudes mwlSettings
        { fajr := 4, sunrise := 6, sunset := 18, isha := 19 } .NightMiddle).isha ≤
      ({ fajr := 4, sunrise := 6, sunset := 18, isha := 19 } : RawTimes).isha) := by
  have h := high_lat_monotone mwlSettings
    { fajr := 4, sunrise := 6, sunset := 18, isha := 19 } .NightMiddle
    (by norm_num) (by norm_num) (by norm_num) (by norm_num)
    (by norm_num [mwlSettings]) (by norm_num [mwlSettings, ishaAngleOf])
  exact ⟨by norm_num, by norm_num, by norm_num [mwlSettings],
    by norm_num [mwlSettings, ishaAngleOf], h.1, h.2.1⟩

theorem normRound_mem {b : ℝ} (h1 : -180 < b) (h2 : b ≤ 180) :
    0 ≤ ((round ((if b < 0 then b + 360 else b) * 10 ^ 6) : ℤ) : ℝ) / 10 ^ 6 ∧
    ((round ((if b < 0 then b + 360 else b) * 10 ^ 6) : ℤ) : ℝ) / 10 ^ 6 ≤ 360 := by
  have hn1 : 0 ≤ (if b < 0 then b + 360 else b) := by
    split
    · linarith
    · linarith [not_lt.1 (by assumption)]
  have hn2 : (if b < 0 then b + 360 else b) < 360 := by
    split
    · linarith
    · linarith
  set n := if b < 0 then b + 360 else b with hn
  constructor
  · apply div_nonneg _ (by norm_num)
    have h : (0 : ℤ) ≤ round (n * 10 ^ 6) := by
      rw [round_eq]
      apply Int.floor_nonneg.2
      nlinarith
    exact_mod_cast h
  · rw [div_le_iff₀ (by norm_num)]
    have h : round (n * 10 ^ 6) ≤ (360 * 10 ^ 6 : ℤ) := by
      rw [round_eq, Int.lt_add_one_iff.symm, Int.floor_lt]
      push_cast
      nlinarith
    calc ((round (n * 10 ^ 6) : ℤ) : ℝ) ≤ ((360 * 10 ^ 6 : ℤ) : ℝ) := by exact_mod_cast h
    _ = 360 * 10 ^ 6 := by norm_num

/-- C8 (amended): the prayer-times engine's qibla bearing (normalized with
`fix_angle`) always lies in `[0, 360)`; the qibla-api's bearing lies in
`[0, 360]` — the atan2 value normalized by the add-360-if-negative step is
in `[0, 360)`, but the final rounding to six decimal places can close the
gap and return exactly 360 for bearings within 5·10⁻⁷ of 360. -/
theorem qibla_bearing_ranges (latitude longitude : ℝ) :
    (0 ≤ engineQibla latitude longitude ∧ engineQibla latitude longitude < 360) ∧
    (0 ≤ qiblaApiBearing latitude longitude ∧
      qiblaApiBearing latitude longitude ≤ 360) := by
  constructor
  · exact fixAngle_mem _
  · have hA := atan2_mem
      (sin (dtr 39.8251832 - dtr longitude) * cos (dtr 21.4224779))
      (cos (dtr latitude) * sin (dtr 21.4224779) -
        sin (dtr latitude) * cos (dtr 21.4224779) * cos (dtr 39.8251832 - dtr longitude))
    have hb1 : -180 < rtd (atan2
        (sin (dtr 39.8251832 - dtr longitude) * cos (dtr 21.4224779))
        (cos (dtr latitude) * sin (dtr 21.4224779) -
          sin (dtr latitude) * cos (dtr 21.4224779) * cos (dtr 39.8251832 - dtr longitude))) := by
      have h := rtd_lt_rtd hA.1
      rw [show rtd (-π) = -180 by unfold rtd; field_simp; ring] at h
      exact h
    have hb2 : rtd (atan2
        (sin (dtr 39.8251832 - dtr longitude) * cos (dtr 21.4224779))
        (cos (dtr latitude) * sin (dtr 21.4224779) -
          sin (dtr latitude) * cos (dtr 21.4224779) * cos (dtr 39.8251832 - dtr longitude))) ≤ 180 := by
      have h := rtd_le_rtd hA.2
      rw [rtd_pi] at h
      exact h
    exact normRound_mem hb1 hb2

theorem dtr_zero : dtr 0 = 0 := by
  unfold dtr
  ring

theorem fixAngle_eval {a : ℝ} (k : ℤ) (h1 : 0 ≤ a - 360 * k)
    (h2 : a - 360 * k < 360) : fixAngle a = a - 360 * k :=
  fix_eval k (by norm_num) h1 h2

theorem fixAngle_eq_self {a : ℝ} (h0 : 0 ≤ a) (h360 : a < 360) : fixAngle a = a :=
  fix_eq_self h0 h360

theorem c4_jd : julianDate 2000 6 21 = 2451716.5 := by
  unfold julianDate
  norm_num

set_option maxHeartbeats 1000000 in
theorem c4_declArg_mem :
    0.38 ≤ declArg (julianDate 2000 6 21) ∧ declArg (julianDate 2000 6 21) ≤ 0.41 := by
  have hpi1 : (3.141592 : ℝ) < π := pi_gt_d6
  have hpi2 : π < 3.141593 := pi_lt_d6
  -- the obliquity at this date and its sine
  have he : sunObliquity (julianDate 2000 6 21) = 23.43893826 := by
    rw [c4_jd]
    unfold sunObliquity
    norm_num
  have hea : (0.40908 : ℝ) < dtr 23.43893826 := by unfold dtr; nlinarith
  have heb : dtr 23.43893826 < 0.40909 := by unfold dtr; nlinarith
  have hcube : dtr 23.43893826 ^ 3 < (0.40909 : ℝ) ^ 3 :=
    pow_lt_pow_left₀ heb (by linarith) (by norm_num)
  have hsine_lb : (0.39 : ℝ) < sin (dtr 23.43893826) := by
    have h := sin_gt_sub_cube (by linarith) (by linarith)
    nlinarith
  have hsine_ub : sin (dtr 23.43893826) < 0.41 := by
    have h := sin_lt (x := dtr 23.43893826) (by linarith)
    linarith
  -- the ecliptic longitude lies in a 4-degree window around 90
  have hq : fixAngle (280.459 + 0.98564736 * (julianDate 2000 6 21 - 2451545)) =
      89.49752224 := by
    rw [c4_jd]
    have h := fixAngle_eval
      (a := 280.459 + 0.98564736 * ((2451716.5 : ℝ) - 2451545)) 1
      (by norm_num) (by norm_num)
    norm_num at h ⊢
    linarith
  have hl_eq0 : sunEclLng (julianDate 2000 6 21) =
      fixAngle (fixAngle (280.459 + 0.98564736 * (julianDate 2000 6 21 - 2451545)) +
        1.915 * sin (dtr (fixAngle (357.529 + 0.98560028 * (julianDate 2000 6 21 - 2451545)))) +
        0.020 * sin (dtr (2 * fixAngle (357.529 + 0.98560028 * (julianDate 2000 6 21 - 2451545))))) := rfl
  rw [hq] at hl_eq0
  have hsg1 := neg_one_le_sin
    (dtr (fixAngle (357.529 + 0.98560028 * (julianDate 2000 6 21 - 2451545))))
  have hsg2 := sin_le_one
    (dtr (fixAngle (357.529 + 0.98560028 * (julianDate 2000 6 21 - 2451545))))
  have hsg3 := neg_one_le_sin
    (dtr (2 * fixAngle (357.529 + 0.98560028 * (julianDate 2000 6 21 - 2451545))))
  have hsg4 := sin_le_one
    (dtr (2 * fixAngle (357.529 + 0.98560028 * (julianDate 2000 6 21 - 2451545))))
  have hl : sunEclLng (julianDate 2000 6 21) =
      89.49752224 +
        1.915 * sin (dtr (fixAngle (357.529 + 0.98560028 * (julianDate 2000 6 21 - 2451545)))) +
        0.020 * sin (dtr (2 * fixAngle (357.529 + 0.98560028 * (julianDate 2000 6 21 - 2451545)))) := by
    rw [hl_eq0]
    exact fixAngle_eq_self (by linarith) (by linarith)
  obtain ⟨I, hIval, hIa, hIb⟩ :
      ∃ I : ℝ, sin (dtr (sunEclLng (julianDate 2000 6 21))) = sin (dtr I) ∧
        (87.56 : ℝ) ≤ I ∧ I ≤ (91.44 : ℝ) :=
    ⟨_, by rw [hl], by linarith, by linarith⟩
  -- sine of the ecliptic longitude is close to 1
  have hdtr90 : dtr 90 = π / 2 := by unfold dtr; ring
  have hsplit : π / 2 - dtr I = dtr (90 - I) := by
    rw [← hdtr90]
    unfold dtr
    ring
  have hsinI_eq : sin (dtr I) = cos (dtr (90 - I)) := by
    rw [← hsplit, cos_pi_div_two_sub]
  have hs2 : (90 - I) ^ 2 ≤ (2.44 : ℝ) ^ 2 :=
    sq_le_sq' (by linarith) (by linarith)
  have hp2 : π ^ 2 ≤ (3.141593 : ℝ) ^ 2 :=
    sq_le_sq' (by linarith [pi_pos]) (by linarith)
  have hdtrsq : dtr (90 - I) ^ 2 ≤ (2.44 : ℝ) ^ 2 * (3.141593 : ℝ) ^ 2 / 32400 := by
    unfold dtr
    have hmul : (90 - I) ^ 2 * π ^ 2 ≤ (2.44 : ℝ) ^ 2 * (3.141593 : ℝ) ^ 2 :=
      mul_le_mul hs2 hp2 (sq_nonneg _) (by norm_num)
    calc ((90 - I) * π / 180) ^ 2 = (90 - I) ^ 2 * π ^ 2 / 32400 := by ring
    _ ≤ (2.44 : ℝ) ^ 2 * (3.141593 : ℝ) ^ 2 / 32400 := by linarith
  have hsinI_lb : (0.99 : ℝ) ≤ sin (dtr I) := by
    rw [hsinI_eq]
    have h := one_sub_sq_div_two_le_cos (x := dtr (90 - I))
    nlinarith
  have hsinI_ub : sin (dtr I) ≤ 1 := sin_le_one _
  -- assemble the declination argument bounds
  have hA : declArg (julianDate 2000 6 21) =
      sin (dtr 23.43893826) * sin (dtr I) := by
    unfold declArg
    rw [he, hIval]
  rw [hA]
  constructor
  · nlinarith
  · nlinarith

theorem roundBearing_ge {b : ℝ} (hneg : b < 0) (hlb : -(6 / 10 ^ 9) ≤ b) :
    (360 : ℝ) ≤ ((round ((if b < 0 then b + 360 else b) * 10 ^ 6) : ℤ) : ℝ) / 10 ^ 6 := by
  rw [if_pos hneg]
  rw [le_div_iff₀ (by norm_num)]
  have h : (360 * 10 ^ 6 : ℤ) ≤ round ((b + 360) * 10 ^ 6) := by
    rw [round_eq]
    apply Int.le_floor.2
    push_cast
    nlinarith
  calc (360 : ℝ) * 10 ^ 6 = ((360 * 10 ^ 6 : ℤ) : ℝ) := by norm_num
  _ ≤ ((round ((b + 360) * 10 ^ 6) : ℤ) : ℝ) := by exact_mod_cast h

set_option maxHeartbeats 1000000 in
theorem c4_cosRange_sat (a : ℝ) (ha : 0 ≤ sin (dtr a)) :
    cosRange 89.9 a ((sunPosition (julianDate 2000 6 21)).2) = -1 := by
  have hpi1 : (3.141592 : ℝ) < π := pi_gt_d6
  have hpi2 : π < 3.141593 := pi_lt_d6
  have hdecl_eq : (sunPosition (julianDate 2000 6 21)).2 =
      rtd (arcsin (declArg (julianDate 2000 6 21))) := rfl
  have hA := c4_declArg_mem
  have hsindecl : sin (dtr ((sunPosition (julianDate 2000 6 21)).2)) =
      declArg (julianDate 2000 6 21) := by
    rw [hdecl_eq, dtr_rtd, sin_arcsin (by linarith [hA.1]) (by linarith [hA.2])]
  have hcosdecl : cos (dtr ((sunPosition (julianDate 2000 6 21)).2)) =
      Real.sqrt (1 - declArg (julianDate 2000 6 21) ^ 2) := by
    rw [hdecl_eq, dtr_rtd, cos_arcsin]
  have hcos_ub : cos (dtr ((sunPosition (julianDate 2000 6 21)).2)) ≤ 1 := by
    rw [hcosdecl]
    exact Real.sqrt_le_one.2 (by nlinarith [sq_nonneg (declArg (julianDate 2000 6 21))])
  have hcos_pos : 0 < cos (dtr ((sunPosition (julianDate 2000 6 21)).2)) := by
    rw [hcosdecl]
    apply Real.sqrt_pos.2
    nlinarith [hA.1, hA.2]
  have hlat_split : dtr 89.9 = π / 2 - dtr 0.1 := by unfold dtr; ring
  have hcoslat_eq : cos (dtr 89.9) = sin (dtr 0.1) := by
    rw [hlat_split, cos_pi_div_two_sub]
  have hsinlat_eq : sin (dtr 89.9) = cos (dtr 0.1) := by
    rw [hlat_split, sin_pi_div_two_sub]
  have hd01a : (0 : ℝ) < dtr 0.1 := by unfold dtr; positivity
  have hd01b : dtr 0.1 < 0.00175 := by unfold dtr; nlinarith
  have hsin01_pos : 0 < sin (dtr 0.1) :=
    sin_pos_of_pos_of_lt_pi hd01a (by linarith)
  have hsin01_ub : sin (dtr 0.1) < 0.00175 := by
    have h := sin_lt hd01a
    linarith
  have hcos01_lb : (0.999 : ℝ) ≤ cos (dtr 0.1) := by
    have h := one_sub_sq_div_two_le_cos (x := dtr 0.1)
    nlinarith
  have hp2pos : 0 < cos (dtr ((sunPosition (julianDate 2000 6 21)).2)) * cos (dtr 89.9) := by
    rw [hcoslat_eq]
    exact mul_pos hcos_pos hsin01_pos
  have hp2ub : cos (dtr ((sunPosition (julianDate 2000 6 21)).2)) * cos (dtr 89.9) ≤
      0.00175 := by
    rw [hcoslat_eq]
    nlinarith
  have hkey : -sin (dtr a) -
      sin (dtr ((sunPosition (julianDate 2000 6 21)).2)) * sin (dtr 89.9) ≤
      -(cos (dtr ((sunPosition (julianDate 2000 6 21)).2)) * cos (dtr 89.9)) := by
    rw [hsindecl, hsinlat_eq]
    nlinarith [hA.1, hA.2, hcos01_lb]
  have hratio : (-sin (dtr a) -
      sin (dtr ((sunPosition (julianDate 2000 6 21)).2)) * sin (dtr 89.9)) /
      (cos (dtr ((sunPosition (julianDate 2000 6 21)).2)) * cos (dtr 89.9)) ≤ -1 := by
    rw [div_le_iff₀ hp2pos]
    linarith
  show min (max ((-sin (dtr a) -
      sin (dtr ((sunPosition (julianDate 2000 6 21)).2)) * sin (dtr 89.9)) /
      (cos (dtr ((sunPosition (julianDate 2000 6 21)).2)) * cos (dtr 89.9))) (-1)) 1 = -1
  rw [max_eq_right hratio, min_eq_left (by norm_num)]

set_option maxHeartbeats 1000000 in
theorem c4_p2_pos :
    0 < cos (dtr ((sunPosition (julianDate 2000 6 21)).2)) * cos (dtr 89.9) := by
  have hpi1 : (3.141592 : ℝ) < π := pi_gt_d6
  have hpi2 : π < 3.141593 := pi_lt_d6
  have hdecl_eq : (sunPosition (julianDate 2000 6 21)).2 =
      rtd (arcsin (declArg (julianDate 2000 6 21))) := rfl
  have hA := c4_declArg_mem
  have hcosdecl : cos (dtr ((sunPosition (julianDate 2000 6 21)).2)) =
      Real.sqrt (1 - declArg (julianDate 2000 6 21) ^ 2) := by
    rw [hdecl_eq, dtr_rtd, cos_arcsin]
  have hcos_pos : 0 < cos (dtr ((sunPosition (julianDate 2000 6 21)).2)) := by
    rw [hcosdecl]
    apply Real.sqrt_pos.2
    nlinarith [hA.1, hA.2]
  have hlat_split : dtr 89.9 = π / 2 - dtr 0.1 := by unfold dtr; ring
  have hcoslat_eq : cos (dtr 89.9) = sin (dtr 0.1) := by
    rw [hlat_split, cos_pi_div_two_sub]
  have hd01a : (0 : ℝ) < dtr 0.1 := by unfold dtr; positivity
  have hsin01_pos : 0 < sin (dtr 0.1) :=
    sin_pos_of_pos_of_lt_pi hd01a (by unfold dtr; nlinarith)
  rw [hcoslat_eq]
  exact mul_pos hcos_pos hsin01_pos

set_option maxHeartbeats 1000000 in
/-- C4 counterexample: at 89.9°N on 2000-06-21 (Julian Day 2451716.5), with
the MWL method and the NightMiddle rule configured, both the Fajr and the
sunset hour-angle inversions saturate at the acos clamp, so the raw record
handed to `adjust_high_latitudes` has `sunset = fajr + 24`: the two values
cannot both lie in `[0, 24)`, hence an unnormalized value crosses the
function boundary into the high-latitude corrector. -/
theorem unnormalized_time_crosses_boundary :
    ¬ (inDay (rawOf (computeRawBeforeHighLat 89.9 0 nightMiddleMwl
          (sunPosition (julianDate 2000 6 21)).1
          (sunPosition (julianDate 2000 6 21)).2)).fajr ∧
       inDay (rawOf (computeRawBeforeHighLat 89.9 0 nightMiddleMwl
          (sunPosition (julianDate 2000 6 21)).1
          (sunPosition (julianDate 2000 6 21)).2)).sunset) := by
  have hpi1 : (3.141592 : ℝ) < π := pi_gt_d6
  have hpi2 : π < 3.141593 := pi_lt_d6
  have hrs : riseSetAngle 0 = 0.833 := by
    unfold riseSetAngle
    norm_num
  have hsin833 : 0 ≤ sin (dtr 0.833) := by
    apply le_of_lt
    apply sin_pos_of_pos_of_lt_pi
    · unfold dtr; positivity
    · unfold dtr; nlinarith
  have hsin18 : 0 ≤ sin (dtr 18) := by
    apply le_of_lt
    apply sin_pos_of_pos_of_lt_pi
    · unfold dtr; positivity
    · unfold dtr; nlinarith
  have hcr_rise : cosRange 89.9 (riseSetAngle 0)
      ((sunPosition (julianDate 2000 6 21)).2) = -1 := by
    rw [hrs]
    exact c4_cosRange_sat 0.833 hsin833
  have hcr_fajr : cosRange 89.9 18 ((sunPosition (julianDate 2000 6 21)).2) = -1 :=
    c4_cosRange_sat 18 hsin18
  have hok : ∀ ang dir : ℝ, sunAngleTime 89.9 ang
      (sunPosition (julianDate 2000 6 21)).1
      ((sunPosition (julianDate 2000 6 21)).2) dir =
      .ok (midDay (sunPosition (julianDate 2000 6 21)).1 +
        dir * (rtd (arccos (cosRange 89.9 ang
          ((sunPosition (julianDate 2000 6 21)).2))) / 15)) :=
    fun ang dir => sunAngleTime_ok ang dir (ne_of_gt c4_p2_pos)
  have hfs : (rawOf (computeRawBeforeHighLat 89.9 0 nightMiddleMwl
        (sunPosition (julianDate 2000 6 21)).1
        (sunPosition (julianDate 2000 6 21)).2)).fajr =
        midDay (sunPosition (julianDate 2000 6 21)).1 +
          -1 * (rtd (arccos (cosRange 89.9 18
            ((sunPosition (julianDate 2000 6 21)).2))) / 15) ∧
      (rawOf (computeRawBeforeHighLat 89.9 0 nightMiddleMwl
        (sunPosition (julianDate 2000 6 21)).1
        (sunPosition (julianDate 2000 6 21)).2)).sunset =
        midDay (sunPosition (julianDate 2000 6 21)).1 +
          1 * (rtd (arccos (cosRange 89.9 (riseSetAngle 0)
            ((sunPosition (julianDate 2000 6 21)).2))) / 15) := by
    unfold computeRawBeforeHighLat asrTime
    simp only [hok, nightMiddleMwl, mwlSettings, Bind.bind, Except.bind, rawOf]
    exact ⟨rfl, rfl⟩
  have h1 := hfs.1
  have h2 := hfs.2
  rw [hcr_fajr, arccos_neg_one, rtd_pi] at h1
  rw [hcr_rise, arccos_neg_one, rtd_pi] at h2
  intro hcon
  unfold inDay at hcon
  obtain ⟨⟨hf0, hf24⟩, hs0, hs24⟩ := hcon
  rw [h1] at hf0
  rw [h2] at hs24
  norm_num at hf0 hs24
  linarith

set_option maxHeartbeats 1000000 in
/-- C8 counterexample: for the observer at latitude 0 and longitude
`39.8251832 + 10⁻⁹` (a hair east of the Kaaba meridian), the true bearing is
a few nanodegrees below 360, the add-360 normalization leaves it strictly
below 360, but the final rounding to six decimal places returns exactly
360 — outside the claimed half-open interval `[0, 360)`. -/
theorem qibla_api_bearing_reaches_360 :
    ¬ (qiblaApiBearing 0 (39.8251832 + 1 / 1000000000) < 360) := by
  have hpi1 : (3.141592 : ℝ) < π := pi_gt_d6
  have hpi2 : π < 3.141593 := pi_lt_d6
  -- bounds on the Kaaba latitude in radians and its sine/cosine
  have hL2a : (0.3738 : ℝ) < dtr 21.4224779 := by unfold dtr; nlinarith
  have hL2b : dtr 21.4224779 < 0.374 := by unfold dtr; nlinarith
  have hL2pos : (0 : ℝ) < dtr 21.4224779 := by linarith
  have hcube : dtr 21.4224779 ^ 3 < (0.374 : ℝ) ^ 3 :=
    pow_lt_pow_left₀ hL2b hL2pos.le (by norm_num)
  have hsinL2 : (0.36 : ℝ) < sin (dtr 21.4224779) := by
    have h := sin_gt_sub_cube hL2pos (by linarith)
    have hval : ((0.374 : ℝ)) ^ 3 = 0.052313624 := by norm_num
    nlinarith
  have hcosL2pos : (0 : ℝ) < cos (dtr 21.4224779) := by
    apply cos_pos_of_mem_Ioo
    constructor <;> [linarith; linarith]
  have hcosL2le : cos (dtr 21.4224779) ≤ 1 := cos_le_one _
  -- bounds on the 1e-9-degree longitude offset in radians
  have hdpos : (0 : ℝ) < dtr (1 / 1000000000) := by
    unfold dtr
    positivity
  have hdlt : dtr (1 / 1000000000) < 2 / 10 ^ 11 := by
    unfold dtr
    nlinarith
  have hsind : (0 : ℝ) < sin (dtr (1 / 1000000000)) :=
    sin_pos_of_pos_of_lt_pi hdpos (by nlinarith)
  have hsindlt : sin (dtr (1 / 1000000000)) < dtr (1 / 1000000000) := sin_lt hdpos
  -- the delta-longitude and the two atan2 arguments at the concrete input
  have hdlon : dtr 39.8251832 - dtr (39.8251832 + 1 / 1000000000) =
      -dtr (1 / 1000000000) := by
    unfold dtr
    ring
  have hx : cos (dtr 0) * sin (dtr 21.4224779) -
      sin (dtr 0) * cos (dtr 21.4224779) *
        cos (dtr 39.8251832 - dtr (39.8251832 + 1 / 1000000000)) =
      sin (dtr 21.4224779) := by
    rw [dtr_zero]
    simp
  have hy : sin (dtr 39.8251832 - dtr (39.8251832 + 1 / 1000000000)) *
      cos (dtr 21.4224779) =
      -(sin (dtr (1 / 1000000000)) * cos (dtr 21.4224779)) := by
    rw [hdlon, sin_neg]
    ring
  have hXpos : (0 : ℝ) < cos (dtr 0) * sin (dtr 21.4224779) -
      sin (dtr 0) * cos (dtr 21.4224779) *
        cos (dtr 39.8251832 - dtr (39.8251832 + 1 / 1000000000)) := by
    rw [hx]
    linarith
  have hYneg : sin (dtr 39.8251832 - dtr (39.8251832 + 1 / 1000000000)) *
      cos (dtr 21.4224779) < 0 := by
    rw [hy]
    nlinarith
  -- the ratio handed to arctan is tiny and negative
  have hratio_eq : sin (dtr 39.8251832 - dtr (39.8251832 + 1 / 1000000000)) *
      cos (dtr 21.4224779) /
      (cos (dtr 0) * sin (dtr 21.4224779) -
        sin (dtr 0) * cos (dtr 21.4224779) *
          cos (dtr 39.8251832 - dtr (39.8251832 + 1 / 1000000000))) =
      -(sin (dtr (1 / 1000000000)) * cos (dtr 21.4224779) /
        sin (dtr 21.4224779)) := by
    rw [hx, hy, neg_div]
  have hmag : sin (dtr (1 / 1000000000)) * cos (dtr 21.4224779) /
      sin (dtr 21.4224779) < (2 / 10 ^ 11) / 0.36 := by
    have h1 : sin (dtr (1 / 1000000000)) * cos (dtr 21.4224779) < 2 / 10 ^ 11 := by
      nlinarith
    have h2 : sin (dtr (1 / 1000000000)) * cos (dtr 21.4224779) /
        sin (dtr 21.4224779) ≤
        sin (dtr (1 / 1000000000)) * cos (dtr 21.4224779) / 0.36 := by
      apply div_le_div_of_nonneg_left _ (by norm_num) hsinL2.le
      positivity
    have h3 : sin (dtr (1 / 1000000000)) * cos (dtr 21.4224779) / 0.36 <
        (2 / 10 ^ 11) / 0.36 :=
      (div_lt_div_iff_of_pos_right (by norm_num)).2 h1
    linarith
  set Y := sin (dtr 39.8251832 - dtr (39.8251832 + 1 / 1000000000)) *
    cos (dtr 21.4224779) with hYdef
  set X := cos (dtr 0) * sin (dtr 21.4224779) -
    sin (dtr 0) * cos (dtr 21.4224779) *
      cos (dtr 39.8251832 - dtr (39.8251832 + 1 / 1000000000)) with hXdef
  have hratio_neg : Y / X < 0 := div_neg_of_neg_of_pos hYneg hXpos
  have hratio_lb : -((2 / 10 ^ 11) / 0.36) < Y / X := by
    rw [hratio_eq]
    linarith
  have hatan : atan2 Y X = arctan (Y / X) := atan2_pos_x Y hXpos
  have harc_neg : arctan (Y / X) < 0 := by
    calc arctan (Y / X) < arctan 0 := arctan_strictMono hratio_neg
    _ = 0 := arctan_zero
  have harc_lb : Y / X ≤ arctan (Y / X) := le_arctan_of_nonpos hratio_neg.le
  have hbneg : rtd (atan2 Y X) < 0 := by
    rw [hatan]
    calc rtd (arctan (Y / X)) < rtd 0 := rtd_lt_rtd harc_neg
    _ = 0 := rtd_zero
  have hblb : -(6 / 10 ^ 9) ≤ rtd (atan2 Y X) := by
    rw [hatan]
    have step1 : rtd (-((2 / 10 ^ 11) / 0.36)) ≤ rtd (Y / X) :=
      rtd_le_rtd hratio_lb.le
    have step2 : rtd (Y / X) ≤ rtd (arctan (Y / X)) := rtd_le_rtd harc_lb
    have step0 : -(6 / 10 ^ 9 : ℝ) ≤ rtd (-((2 / 10 ^ 11) / 0.36)) := by
      unfold rtd
      rw [le_div_iff₀ pi_pos]
      nlinarith
    linarith
  exact not_lt.2 (roundBearing_ge hbneg hblb)

/-- C4 (amended): every one of the eleven values returned by `compute_times`
lies in `[0, 24)`, because the final longitude-correction pass applies
`fix_hour` to every field; but the normalization invariant does not hold at
interior function boundaries — the raw times handed to
`adjust_high_latitudes` can lie outside `[0, 24)` (see the counterexample
theorem). -/
theorem compute_times_fields_in_day (latitude longitude elevation : ℝ)
    (s : MethodSettings) (jd : ℝ) :
    allInDayE (computeTimes latitude longitude elevation s jd) := by
  unfold computeTimes computeTimesAux
  cases h : computeRawBeforeHighLat latitude elevation s
    (sunPosition jd).1 (sunPosition jd).2 with
  | error e => simp [Except.map, h, allInDayE]
  | ok pre =>
    simp only [Except.map, h, allInDayE]
    have hin : ∀ t : RawTimes, allInDay (finalizeTimes longitude s t) := by
      intro t
      unfold finalizeTimes allInDay inDay
      exact ⟨fixHour_mem _, fixHour_mem _, fixHour_mem _, fixHour_mem _,
        fixHour_mem _, fixHour_mem _, fixHour_mem _, fixHour_mem _,
        fixHour_mem _, fixHour_mem _, fixHour_mem _⟩
    exact hin _

/-- C2 (evaluation at the failing input): at the equator with declination 0
and equation of time 0, the Asr produced with the Hanafi shadow factor 2 is
strictly earlier than the Asr produced with the Standard factor 1 —
`12 + arccos(-1/√5)·(180/π)/15 ≈ 19.77` versus
`12 + arccos(-1/√2)·(180/π)/15 = 21` hours — contradicting the claim (and
the reference algorithm, which negates the arccot-derived shadow angle)
that the Hanafi Asr is never earlier. -/
theorem hanafi_asr_earlier_at_equator :
    timeOf (asrTime 0 (asrFactorOf .Hanafi) 0 0) <
      timeOf (asrTime 0 (asrFactorOf .Standard) 0 0) := by
  have hdtr0 : dtr 0 = 0 := by simp [dtr]
  have hp2 : cos (dtr (0 : ℝ)) * cos (dtr (0 : ℝ)) ≠ 0 := by
    rw [hdtr0]
    norm_num
  have hnoon : midDay 0 = 12 := by
    unfold midDay
    rw [fixHour_eq_self (by norm_num) (by norm_num)]
    norm_num
  have hclamp : ∀ s : ℝ, -1 ≤ s → s ≤ 1 → min (max (-s) (-1)) 1 = -s := by
    intro s h1 h2
    rw [max_eq_left (by linarith), min_eq_left (by linarith)]
  have hcr : ∀ f : ℝ,
      cosRange 0 (rtd (arctan (1 / (f + tan |dtr (0 : ℝ) - dtr 0|)))) 0 =
        -sin (arctan (1 / f)) := by
    intro f
    unfold cosRange
    simp [hdtr0, dtr_rtd]
    exact hclamp _ (neg_one_le_sin _) (sin_le_one _)
  have key : ∀ f : ℝ, timeOf (asrTime 0 f 0 0) =
      12 + 1 * (rtd (arccos (-sin (arctan (1 / f)))) / 15) := by
    intro f
    unfold asrTime
    rw [sunAngleTime_ok _ _ hp2]
    simp only [timeOf]
    rw [hnoon, hcr f]
  rw [show asrFactorOf .Hanafi = (2 : ℝ) from rfl,
    show asrFactorOf .Standard = (1 : ℝ) from rfl, key 2, key 1]
  have hs : sin (arctan (1 / 2)) < sin (arctan 1) := by
    apply sin_lt_sin_of_lt_of_le_pi_div_two
    · exact (neg_pi_div_two_lt_arctan _).le
    · exact (arctan_lt_pi_div_two _).le
    · exact arctan_strictMono (by norm_num)
  have harc : arccos (-sin (arctan (1 / 2))) < arccos (-sin (arctan 1)) :=
    Real.strictAntiOn_arccos
      ⟨by linarith [sin_le_one (arctan 1)], by linarith [neg_one_le_sin (arctan 1)]⟩
      ⟨by linarith [sin_le_one (arctan (1 / 2))],
        by linarith [neg_one_le_sin (arctan (1 / 2))]⟩
      (by linarith)
  have hr := rtd_lt_rtd harc
  linarith

/-- C9: the engine is a pure function of the tuple (coordinates, resolved
method settings, adjustments, calendar date, Hijri collaborator): two
invocations on equal inputs yield equal outputs, in particular
byte-identical strings for all eleven prayer-time fields and the two date
fields. -/
theorem engine_deterministic (a b : EngineInput) (h : a = b) :
    calculatePrayerTimes a = calculatePrayerTimes b := by
  rw [h]

/-- Witness for C9 at a concrete input: the MWL method at the origin on
2024-01-01. -/
theorem engine_deterministic_witness :
    calculatePrayerTimes
        { latitude := 0, longitude := 0, elevation := 0,
          settings := mwlSettings, adjustments := {},
          year := 2024, month := 1, day := 1,
          hijriOf := fun _ _ _ => .ok ("") } =
      calculatePrayerTimes
        { latitude := 0, longitude := 0, elevation := 0,
          settings := mwlSettings, adjustments := {},
          year := 2024, month := 1, day := 1,
          hijriOf := fun _ _ _ => .ok ("") } :=
  engine_deterministic _ _ rfl

end IslamicApis
